import Mathlib

/-!
Verification of the withdrawal edge function of hanzara/chama-hub-digital-circles.

The handler (`serve` in the withdrawal function) validates an authenticated
withdrawal request, computes a provider fee, resolves a payment-provider
recipient, initiates a transfer, and reconciles the user's wallet balance and
ledger.  We embed it shallowly: JavaScript numbers become `ℚ`, JSON fields
that may be absent become `Option`, and every external effect (auth lookup,
wallet read, provider HTTP calls, wallet write, ledger insert) is driven by an
explicit environment `Env` recording the outcome each call would have.  The
handler returns the structured response it would serialize, together with the
ordered list of external calls it performed.
-/

namespace Withdraw

/-- Lower-case a string character-by-character (JS `toLowerCase` on ASCII). -/
def strToLower (s : String) : String := String.mk (s.data.map Char.toLower)

/-- Upper-case a string character-by-character (JS `toUpperCase` on ASCII). -/
def strToUpper (s : String) : String := String.mk (s.data.map Char.toUpper)

/-- Does the character list start with the given pattern? -/
def matchesAt : List Char → List Char → Bool
  | [], _ => true
  | _ :: _, [] => false
  | a :: as, b :: bs => a == b && matchesAt as bs

/-- Does the character list contain the pattern as a contiguous sublist? -/
def hasSubList (pat : List Char) : List Char → Bool
  | [] => matchesAt pat []
  | b :: bs => matchesAt pat (b :: bs) || hasSubList pat bs

/-- JS `String.prototype.includes`. -/
def hasSubstr (s pat : String) : Bool := hasSubList pat.data s.data

/-- Does the string start with the given pattern? (JS `startsWith`.) -/
def strStartsWith (s pre : String) : Bool := matchesAt pre.data s.data

/-- Drop the first `n` characters of a string. -/
def strDrop (s : String) (n : Nat) : String := String.mk (s.data.drop n)

/-- JS `trim`: remove whitespace from both ends. -/
def strTrim (s : String) : String :=
  String.mk (((s.data.dropWhile Char.isWhitespace).reverse.dropWhile
    Char.isWhitespace).reverse)

/-- JS `Math.max` on rationals, by the decidable order on `ℚ`. -/
def qmax (a b : ℚ) : ℚ := if a ≤ b then b else a

/-- Rational subtraction, written through `mkRat` so that it evaluates by
kernel reduction (`Rat.sub` itself is irreducible); `qsub_eq` identifies it
with `·-·`. -/
def qsub (a b : ℚ) : ℚ := mkRat (a.num * b.den - b.num * a.den) (a.den * b.den)

/-- Rational multiplication through `mkRat`; `qmul_eq` identifies it with `·*·`. -/
def qmul (a b : ℚ) : ℚ := mkRat (a.num * b.num) (a.den * b.den)

/-- Rational addition through `mkRat`; `qadd_eq` identifies it with `·+·`. -/
def qadd (a b : ℚ) : ℚ := mkRat (a.num * b.den + b.num * a.den) (a.den * b.den)

/-- JS truthiness of an optional string field: `undefined` and `""` are falsy. -/
def truthy : Option String → Bool
  | none => false
  | some s => s ≠ ""

/-- JS `x || ""` on an optional string. -/
def orEmpty : Option String → String
  | none => ""
  | some s => s

/-- JS `x || d` on an optional string: `undefined` and `""` fall back to `d`. -/
def orElseNE : Option String → String → String
  | none, d => d
  | some s, d => if s = "" then d else s

/-- JS `Math.round` on a rational: round half away from zero for the
nonnegative arguments this program produces (the floor of `q + 1/2`). -/
def jsRound (q : ℚ) : ℤ := Rat.floor (qadd q (mkRat 1 2))

/-- String rendering of a rational, used for interpolated messages. -/
def ratStr (q : ℚ) : String :=
  if q.den = 1 then toString q.num else toString q.num ++ "/" ++ toString q.den

/-- `calculateFee` from the withdrawal function (lines 106–126): tiered fee
per payment method; `0.005 = 5/1000` and `0.001 = 1/1000` exactly. -/
def calculateFee (amt : ℚ) (method : String) : ℚ :=
  if method = "mpesa" then
    if amt ≤ 100 then 0
    else if amt ≤ 2500 then 15
    else if amt ≤ 3500 then 25
    else if amt ≤ 5000 then 30
    else if amt ≤ 7500 then 45
    else if amt ≤ 10000 then 50
    else qmax 50 ((Rat.floor (qmul amt (mkRat 5 1000)) : ℤ) : ℚ)
  else if method = "airtel" then
    if amt ≤ 100 then 0
    else if amt ≤ 2500 then 15
    else if amt ≤ 5000 then 30
    else qmax 50 ((Rat.floor (qmul amt (mkRat 5 1000)) : ℤ) : ℚ)
  else if method = "bank" then
    qmax 25 ((Rat.floor (qmul amt (mkRat 1 1000)) : ℤ) : ℚ)
  else 0

/-- Remove trim-able edges, then all whitespace and dashes
(JS `trim` followed by the two regex replacements removing whitespace and
dash characters). -/
def stripPhone (s : String) : String :=
  String.mk ((strTrim s).data.filter fun c => !(c.isWhitespace || c = '-'))

/-- Drop a single leading `+` (the anchored regex replacement). -/
def dropPlus (s : String) : String :=
  if strStartsWith s "+" then strDrop s 1 else s

/-- International phone form (lines 220–227): strip whitespace/dashes and a
leading `+`; replace a leading `0` by `254`; prefix `254` when neither `0`
nor `254` leads. -/
def intlPhoneOf (p : String) : String :=
  let n := dropPlus (stripPhone p)
  if strStartsWith n "0" then "254" ++ strDrop n 1
  else if strStartsWith n "254" then n
  else "254" ++ n

/-- Local phone form (line 228): `0` followed by the international form less
its `254` lead; otherwise the whitespace-stripped input. -/
def localPhoneOf (p : String) : String :=
  let i := intlPhoneOf p
  if strStartsWith i "254" then "0" ++ strDrop i 3 else stripPhone p

theorem qsub_eq (a b : ℚ) : qsub a b = a - b := by
  rw [qsub, Rat.mkRat_eq_divInt, ← Rat.num_divInt_den a, ← Rat.num_divInt_den b,
    Rat.divInt_sub_divInt _ _ (by exact_mod_cast a.den_nz) (by exact_mod_cast b.den_nz)]
  simp

theorem qmul_eq (a b : ℚ) : qmul a b = a * b := (Rat.mul_eq_mkRat a b).symm

theorem qadd_eq (a b : ℚ) : qadd a b = a + b := by
  rw [qadd, Rat.mkRat_eq_divInt, ← Rat.num_divInt_den a, ← Rat.num_divInt_den b,
    Rat.divInt_add_divInt _ _ (by exact_mod_cast a.den_nz) (by exact_mod_cast b.den_nz)]
  simp

theorem qmax_eq (a b : ℚ) : qmax a b = max a b := (max_def a b).symm

/-! ## Data model of the request, the environment and the response

The handler reads a JSON body `{ amount, paymentMethod, destinationDetails }`
and talks to an identity service, the wallet table, and the payment provider.
`Env` fixes the outcome of every one of those external interactions, so the
handler becomes a pure function `Env → Req → Resp × List Call`, where the
`List Call` component is the ordered trace of external calls performed. -/

/-- `destinationDetails`: JSON fields that may be absent. -/
structure Dest where
  account_number : Option String
  bank_name : Option String
  account_name : Option String
  phone_number : Option String
deriving DecidableEq, Repr

/-- The request body. `amount = none` models a missing or non-numeric
`amount` (the `!amount || typeof amount !== 'number'` test). -/
structure Req where
  amount : Option ℚ
  paymentMethod : String
  destinationDetails : Option Dest
deriving DecidableEq, Repr

/-- One entry of the provider's mobile-money channel list; each field may be
absent (the code guards each with `|| ''`). -/
structure Bank where
  name : Option String
  slug : Option String
  code : Option String
deriving DecidableEq, Repr

/-- Result of one `transferrecipient` creation call, as the inner helper
returns it: `ok = resp.ok && data.status`, the provider's `message` (absent
when the JSON had none), and `data.data.recipient_code` (meaningful when
`ok`). -/
structure RecipResult where
  ok : Bool
  message : Option String
  recipientCode : String
deriving DecidableEq, Repr

/-- Outcome of the banks-list fetch: JSON parse failure, a non-success
response (with its optional `message`), or a channel list. -/
inductive BanksOutcome
  | parseError
  | failed (message : Option String)
  | ok (banks : List Bank)
deriving DecidableEq, Repr

/-- Outcome of the transfer call: the fetch threw, the JSON did not parse,
the provider rejected (optional `message` and `code`), or success carrying
`data.data?.reference`. -/
inductive TransferOutcome
  | fetchError
  | parseError
  | rejected (message : Option String) (code : Option String)
  | ok (reference : Option String)
deriving DecidableEq, Repr

/-- Fixed outcomes of all external interactions of one handler run. -/
structure Env where
  authOk : Bool
  wallet : Option ℚ
  keyConfigured : Bool
  banksFetchThrows : Bool
  banks : BanksOutcome
  recipient : String → RecipResult
  bankRecipThrows : Bool
  bankRecipient : RecipResult
  transfer : TransferOutcome
  walletUpdateOk : Bool
  ledgerInsertOk : Bool

/-- One external call performed by the handler, in order. -/
inductive Call
  | listBanks
  | createRecipient (phone : String)
  | createBankRecipient (acctNumber bankCode acctName : String)
  | transfer (minorAmount : ℤ) (recipientCode : String)
  | walletUpdate (newBalance : ℚ) (ok : Bool)
  | ledgerInsert (amount : ℚ) (ok : Bool)
deriving DecidableEq, Repr

/-- The structured responses the handler can serialize, one constructor per
`new Response(...)` site of the source (plus `internalError` for the outer
`catch`). -/
inductive Resp
  | unauthorized
  | invalidAmount
  | destinationRequired
  | bankIncomplete
  | phoneRequired
  | walletNotFound
  | insufficientBalance
  | notConfigured
  | amountTooLow (fee : ℚ)
  | banksParseError
  | banksFailed (message : Option String)
  | providerNotAvailable (method : String)
  | recipientFailed (message : Option String)
  | bankRecipientFailed (message : Option String)
  | transferNetworkError
  | transferParseError
  | transferRejected (message code : Option String)
  | walletUpdateFailed
  | internalError
  | success (amount fee netAmount : ℚ) (destination method : String)
      (reference : Option String) (newBalance : ℚ)
deriving DecidableEq, Repr

/-- HTTP status of each response, as in the source. -/
def statusOf : Resp → Nat
  | .unauthorized => 401
  | .invalidAmount => 400
  | .destinationRequired => 400
  | .bankIncomplete => 400
  | .phoneRequired => 400
  | .walletNotFound => 404
  | .insufficientBalance => 400
  | .notConfigured => 500
  | .amountTooLow _ => 400
  | .banksParseError => 500
  | .banksFailed _ => 400
  | .providerNotAvailable _ => 400
  | .recipientFailed _ => 400
  | .bankRecipientFailed _ => 400
  | .transferNetworkError => 500
  | .transferParseError => 500
  | .transferRejected _ _ => 400
  | .walletUpdateFailed => 500
  | .internalError => 500
  | .success .. => 200

/-- The `success` JSON field of each response body; `none` when the body has
no such field. -/
def successField : Resp → Option Bool
  | .unauthorized => none
  | .invalidAmount => some false
  | .destinationRequired => none
  | .bankIncomplete => none
  | .phoneRequired => none
  | .walletNotFound => some false
  | .insufficientBalance => some false
  | .notConfigured => some false
  | .amountTooLow _ => some false
  | .banksParseError => some false
  | .banksFailed _ => some false
  | .providerNotAvailable _ => some false
  | .recipientFailed _ => some false
  | .bankRecipientFailed _ => some false
  | .transferNetworkError => some false
  | .transferParseError => some false
  | .transferRejected _ _ => some false
  | .walletUpdateFailed => some false
  | .internalError => none
  | .success .. => some true

/-- The `error` JSON field of each response body, exactly as serialized. -/
def errorField : Resp → Option String
  | .unauthorized => some "Unauthorized"
  | .invalidAmount => some "Please enter a valid withdrawal amount"
  | .destinationRequired => some "Destination details required"
  | .bankIncomplete => some "Bank account details incomplete"
  | .phoneRequired => some "Phone number required for mobile money withdrawal"
  | .walletNotFound => some "Wallet not found"
  | .insufficientBalance => some "Insufficient balance"
  | .notConfigured => some "Payment service not configured"
  | .amountTooLow fee =>
      some ("Withdrawal amount too low. Minimum amount after fees: KES "
        ++ ratStr (qadd fee 1))
  | .banksParseError => some "Payment service error"
  | .banksFailed msg => some (orElseNE msg "Failed to fetch mobile money providers")
  | .providerNotAvailable method => some (strToUpper method ++ " provider not available")
  | .recipientFailed msg => some (orElseNE msg "Failed to create recipient")
  | .bankRecipientFailed msg => some (orElseNE msg "Failed to create bank recipient")
  | .transferNetworkError => some "Network error. Please try again."
  | .transferParseError => some "Payment service error"
  | .transferRejected msg code =>
      let m := orElseNE msg "Transfer failed"
      some (if code = some "insufficient_balance"
          || hasSubstr (strToLower m) "balance is not enough" then
        "Service temporarily unavailable. Please try again later or contact support."
      else m)
  | .walletUpdateFailed => some "Failed to update wallet"
  | .internalError => some "Internal server error"
  | .success .. => none

/-- The `code` JSON field of each response body. -/
def codeField : Resp → Option String
  | .invalidAmount => some "invalid_amount"
  | .amountTooLow _ => some "amount_too_low"
  | .transferRejected _ code => code
  | _ => none

/-- The `fee` JSON field of a failure body (only `amount_too_low` carries it). -/
def feeField : Resp → Option ℚ
  | .amountTooLow fee => some fee
  | _ => none

/-! ## The handler

`handler` mirrors the body of `serve` statement by statement; the pipeline
after validation is split into named stages, each returning the response and
the external calls from that point on. -/

/-- Channel matching (lines 193–204): case-insensitive code equality
(`MPESA` / `ATL_KE`) or substring match on name/slug. -/
def bankMatches (method : String) (b : Bank) : Bool :=
  let name := strToLower (orEmpty b.name)
  let slug := strToLower (orEmpty b.slug)
  let code := strToUpper (orEmpty b.code)
  if method = "mpesa" then
    code = "MPESA" || hasSubstr name "m-pesa" || hasSubstr name "mpesa"
      || hasSubstr slug "m-pesa" || hasSubstr slug "mpesa"
  else if method = "airtel" then
    code = "ATL_KE" || hasSubstr name "airtel" || hasSubstr slug "airtel"
  else false

/-- `banksData.data.find(...)` (line 193). -/
def findProvider (method : String) (banks : List Bank) : Option Bank :=
  banks.find? (bankMatches method)

/-- Retry condition (line 276): the attempt failed and its `message` is a
string whose lower-casing contains "account number is invalid". -/
def wantsLocalRetry (r : RecipResult) : Bool :=
  !r.ok && (match r.message with
    | some m => hasSubstr (strToLower m) "account number is invalid"
    | none => false)

/-- The human-readable destination recorded on success (lines 420–422). -/
def destinationOf (method : String) (dd : Dest) : String :=
  if method = "bank" then orEmpty dd.bank_name ++ " - " ++ orEmpty dd.account_number
  else orEmpty dd.phone_number

/-- Finalization (lines 402–462): attempt the wallet decrement by the full
`amount`; on failure respond 500; on success fire the ledger insert (whose
result the source never checks) and build the success payload. -/
def finalizeStage (env : Env) (bal amount fee : ℚ) (method : String) (dd : Dest)
    (reference : Option String) : Resp × List Call :=
  let upd := Call.walletUpdate (qsub bal amount) env.walletUpdateOk
  if env.walletUpdateOk then
    (Resp.success amount fee (qsub amount fee) (destinationOf method dd) method
        reference (qsub bal amount),
      [upd, Call.ledgerInsert (-amount) env.ledgerInsertOk])
  else
    (Resp.walletUpdateFailed, [upd])

/-- Transfer initiation (lines 326–400): POST the net amount in minor units;
network and parse failures are 500s, provider rejection a 400, success flows
into finalization. -/
def transferStage (env : Env) (bal amount fee : ℚ) (recipientCode method : String)
    (dd : Dest) : Resp × List Call :=
  let c := Call.transfer (jsRound (qmul (qsub amount fee) 100)) recipientCode
  match env.transfer with
  | .fetchError => (Resp.transferNetworkError, [c])
  | .parseError => (Resp.transferParseError, [c])
  | .rejected msg code => (Resp.transferRejected msg code, [c])
  | .ok ref =>
      let r := finalizeStage env bal amount fee method dd ref
      (r.1, c :: r.2)

/-- Mobile-money recipient resolution (lines 155–292): fetch the channel
list, locate the provider, normalize the phone, create the recipient with the
international form, retrying once with the local form only on an
invalid-account-number rejection. -/
def mobileStage (env : Env) (bal amount fee : ℚ) (method : String) (dd : Dest) :
    Resp × List Call :=
  if env.banksFetchThrows then (Resp.internalError, [Call.listBanks])
  else match env.banks with
  | .parseError => (Resp.banksParseError, [Call.listBanks])
  | .failed msg => (Resp.banksFailed msg, [Call.listBanks])
  | .ok banks =>
    match findProvider method banks with
    | none => (Resp.providerNotAvailable method, [Call.listBanks])
    | some _ =>
      let rawPhone := orEmpty dd.phone_number
      let intl := intlPhoneOf rawPhone
      let lcl := localPhoneOf rawPhone
      let r1 := env.recipient intl
      if r1.ok then
        let r := transferStage env bal amount fee r1.recipientCode method dd
        (r.1, Call.listBanks :: Call.createRecipient intl :: r.2)
      else if wantsLocalRetry r1 then
        let r2 := env.recipient lcl
        if r2.ok then
          let r := transferStage env bal amount fee r2.recipientCode method dd
          (r.1, Call.listBanks :: Call.createRecipient intl
            :: Call.createRecipient lcl :: r.2)
        else
          (Resp.recipientFailed r2.message,
            [Call.listBanks, Call.createRecipient intl, Call.createRecipient lcl])
      else
        (Resp.recipientFailed r1.message, [Call.listBanks, Call.createRecipient intl])

/-- Bank recipient creation (lines 293–324); the unguarded `json()` may
throw, landing in the outer catch. -/
def bankStage (env : Env) (bal amount fee : ℚ) (method : String) (dd : Dest) :
    Resp × List Call :=
  let c := Call.createBankRecipient (orEmpty dd.account_number)
    (orEmpty dd.bank_name) (orEmpty dd.account_name)
  if env.bankRecipThrows then (Resp.internalError, [c])
  else if env.bankRecipient.ok then
    let r := transferStage env bal amount fee env.bankRecipient.recipientCode method dd
    (r.1, c :: r.2)
  else (Resp.bankRecipientFailed env.bankRecipient.message, [c])

/-- The pipeline from the wallet lookup on (lines 74–155): wallet, balance,
provider key, fee, net-amount check, then recipient resolution by method. -/
def walletStage (env : Env) (amount : ℚ) (method : String) (dd : Dest) :
    Resp × List Call :=
  match env.wallet with
  | none => (Resp.walletNotFound, [])
  | some bal =>
    if bal < amount then (Resp.insufficientBalance, [])
    else if env.keyConfigured then
      let fee := calculateFee amount method
      if qsub amount fee ≤ 0 then (Resp.amountTooLow fee, [])
      else if method = "mpesa" || method = "airtel" then
        mobileStage env bal amount fee method dd
      else
        bankStage env bal amount fee method dd
    else (Resp.notConfigured, [])

/-- The whole handler: identity, input validation, then `walletStage`. -/
def handler (env : Env) (req : Req) : Resp × List Call :=
  if env.authOk then
    match req.amount with
    | none => (Resp.invalidAmount, [])
    | some amount =>
      if amount ≤ 0 then (Resp.invalidAmount, [])
      else match req.destinationDetails with
      | none => (Resp.destinationRequired, [])
      | some dd =>
        if req.paymentMethod = "bank" then
          if truthy dd.account_number && truthy dd.bank_name && truthy dd.account_name then
            walletStage env amount req.paymentMethod dd
          else (Resp.bankIncomplete, [])
        else
          if truthy dd.phone_number then walletStage env amount req.paymentMethod dd
          else (Resp.phoneRequired, [])
  else (Resp.unauthorized, [])

/-- Wallet balances actually written (update attempted and the write
succeeded), in order. -/
def walletWrites (t : List Call) : List ℚ :=
  t.filterMap fun c => match c with
    | .walletUpdate v true => some v
    | _ => none

/-- All wallet-update attempts, successful or not. -/
def walletAttempts (t : List Call) : List ℚ :=
  t.filterMap fun c => match c with
    | .walletUpdate v _ => some v
    | _ => none

/-- The phones passed to mobile recipient-creation calls, in order. -/
def recipAttempts (t : List Call) : List String :=
  t.filterMap fun c => match c with
    | .createRecipient p => some p
    | _ => none

/-- Is the response the success payload? -/
def isSuccessResp : Resp → Bool
  | .success .. => true
  | _ => false

end Withdraw

namespace Withdraw

def demoDest : Dest := ⟨none, none, none, some "0712345678"⟩

def demoEnv : Env where
  authOk := true
  wallet := some 1000
  keyConfigured := true
  banksFetchThrows := false
  banks := .ok [⟨some "M-PESA", some "mpesa", some "MPESA"⟩]
  recipient := fun p => if p = "254712345678" then ⟨true, none, "RCP_1"⟩
    else ⟨false, some "Account number is invalid", ""⟩
  bankRecipThrows := false
  bankRecipient := ⟨true, none, "RCP_B"⟩
  transfer := .ok (some "TRF_1")
  walletUpdateOk := true
  ledgerInsertOk := true

def demoReq : Req := ⟨some 150, "mpesa", some demoDest⟩

/-! ## Pure facts about the fee function -/

theorem ratFloor_eq (q : ℚ) : (Rat.floor q : ℤ) = ⌊q⌋ :=
  Eq.trans (Rat.floor_def' q) (Eq.symm Rat.floor_def)

theorem mkRat_5_1000 : (mkRat 5 1000 : ℚ) = 5 / 1000 := by
  rw [Rat.mkRat_eq_divInt, Rat.divInt_eq_div]; norm_num

theorem mkRat_1_1000 : (mkRat 1 1000 : ℚ) = 1 / 1000 := by
  rw [Rat.mkRat_eq_divInt, Rat.divInt_eq_div]; norm_num

theorem fee_mpesa_top (a : ℚ) :
    qmax 50 ((Rat.floor (qmul a (mkRat 5 1000)) : ℤ) : ℚ)
      = max 50 ((⌊a * (5 / 1000)⌋ : ℤ) : ℚ) := by
  rw [qmax_eq, qmul_eq, mkRat_5_1000, ratFloor_eq]

theorem fee_bank_form (a : ℚ) :
    qmax 25 ((Rat.floor (qmul a (mkRat 1 1000)) : ℤ) : ℚ)
      = max 25 ((⌊a * (1 / 1000)⌋ : ℤ) : ℚ) := by
  rw [qmax_eq, qmul_eq, mkRat_1_1000, ratFloor_eq]

/-- Tier index of an amount for each method: the constant-fee bands and the
final percentage band, split at the thresholds of `calculateFee`.  Methods
with a single band (bank, unknown) have one tier. -/
def feeTier (a : ℚ) (method : String) : Nat :=
  if method = "mpesa" then
    if a ≤ 100 then 0 else if a ≤ 2500 then 1 else if a ≤ 3500 then 2
    else if a ≤ 5000 then 3 else if a ≤ 7500 then 4 else if a ≤ 10000 then 5
    else 6
  else if method = "airtel" then
    if a ≤ 100 then 0 else if a ≤ 2500 then 1 else if a ≤ 5000 then 2 else 3
  else 0

theorem fee_nonneg (a : ℚ) (method : String) : 0 ≤ calculateFee a method := by
  unfold calculateFee
  split_ifs <;> simp [qmax_eq, le_max_iff]

theorem qmax_floor_mono (c r : ℚ) (hr : 0 ≤ r) {a b : ℚ} (hab : a ≤ b) :
    qmax c ((Rat.floor (qmul a r) : ℤ) : ℚ)
      ≤ qmax c ((Rat.floor (qmul b r) : ℤ) : ℚ) := by
  rw [qmax_eq, qmax_eq, qmul_eq, qmul_eq, ratFloor_eq, ratFloor_eq]
  refine max_le_max le_rfl ?_
  exact_mod_cast Int.floor_le_floor (mul_le_mul_of_nonneg_right hab hr)

set_option maxHeartbeats 2000000 in
theorem fee_mono (method : String) {a b : ℚ} (hab : a ≤ b)
    (ht : feeTier a method = feeTier b method) :
    calculateFee a method ≤ calculateFee b method := by
  by_cases hm : method = "mpesa"
  · subst hm
    simp only [calculateFee, feeTier, String.reduceEq, reduceIte] at ht ⊢
    split_ifs at ht ⊢ <;>
      first
        | omega
        | exact qmax_floor_mono _ _ (by norm_num) hab
        | norm_num
  · by_cases ha2 : method = "airtel"
    · subst ha2
      simp only [calculateFee, feeTier, String.reduceEq, reduceIte] at ht ⊢
      split_ifs at ht ⊢ <;>
        first
          | omega
          | exact qmax_floor_mono _ _ (by norm_num) hab
          | norm_num
    · by_cases hb : method = "bank"
      · subst hb
        simp only [calculateFee, String.reduceEq, reduceIte]
        exact qmax_floor_mono _ _ (by norm_num) hab
      · simp [calculateFee, hm, ha2, hb]

theorem fee_lt_mpesa (a : ℚ) (ha : 0 < a) : calculateFee a "mpesa" < a := by
  simp only [calculateFee, String.reduceEq, reduceIte]
  split_ifs with h1 h2 h3 h4 h5 h6 <;> try linarith
  rw [fee_mpesa_top]
  have hfl : ((⌊a * (5 / 1000)⌋ : ℤ) : ℚ) ≤ a * (5 / 1000) := Int.floor_le _
  have hsm : a * (5 / 1000) < a := by nlinarith
  exact max_lt (by linarith) (by linarith)

theorem fee_lt_airtel (a : ℚ) (ha : 0 < a) : calculateFee a "airtel" < a := by
  simp only [calculateFee, String.reduceEq, reduceIte]
  split_ifs with h1 h2 h3 <;> try linarith
  rw [fee_mpesa_top]
  have hfl : ((⌊a * (5 / 1000)⌋ : ℤ) : ℚ) ≤ a * (5 / 1000) := Int.floor_le _
  have hsm : a * (5 / 1000) < a := by nlinarith
  exact max_lt (by linarith) (by linarith)

theorem fee_bank_low (a : ℚ) (h : a ≤ 25) : a ≤ calculateFee a "bank" := by
  simp only [calculateFee, String.reduceEq, reduceIte]
  rw [fee_bank_form]
  exact le_trans h (le_max_left _ _)


/-! ## Inversion lemmas for the handler pipeline -/

theorem finalize_success {env : Env} {bal amount fee : ℚ} {method : String}
    {dd : Dest} {ref : Option String} {a f n : ℚ} {d m : String}
    {r : Option String} {nb : ℚ}
    (h : (finalizeStage env bal amount fee method dd ref).1
      = Resp.success a f n d m r nb) :
    env.walletUpdateOk = true ∧ amount = a ∧ fee = f ∧ qsub amount fee = n ∧
      destinationOf method dd = d ∧ method = m ∧ ref = r ∧ qsub bal amount = nb := by
  unfold finalizeStage at h
  by_cases hu : env.walletUpdateOk = true <;> simp [hu] at h
  exact ⟨hu, h.1, h.2.1, h.2.2.1, h.2.2.2.1, h.2.2.2.2.1, h.2.2.2.2.2.1,
    h.2.2.2.2.2.2⟩

theorem transfer_success {env : Env} {bal amount fee : ℚ}
    {recipientCode method : String} {dd : Dest} {a f n : ℚ} {d m : String}
    {r : Option String} {nb : ℚ}
    (h : (transferStage env bal amount fee recipientCode method dd).1
      = Resp.success a f n d m r nb) :
    env.transfer = TransferOutcome.ok r ∧
    env.walletUpdateOk = true ∧ amount = a ∧ fee = f ∧ qsub amount fee = n ∧
      destinationOf method dd = d ∧ method = m ∧ qsub bal amount = nb := by
  unfold transferStage at h
  cases htr : env.transfer <;> rw [htr] at h <;> simp at h
  rename_i ref
  obtain ⟨hu, h1, h2, h3, h4, h5, h6, h7⟩ := finalize_success h
  subst h6
  exact ⟨rfl, hu, h1, h2, h3, h4, h5, h7⟩

theorem mobile_success {env : Env} {bal amount fee : ℚ} {method : String}
    {dd : Dest} {a f n : ℚ} {d m : String} {r : Option String} {nb : ℚ}
    (h : (mobileStage env bal amount fee method dd).1
      = Resp.success a f n d m r nb) :
    env.transfer = TransferOutcome.ok r ∧
    env.walletUpdateOk = true ∧ amount = a ∧ fee = f ∧ qsub amount fee = n ∧
      destinationOf method dd = d ∧ method = m ∧ qsub bal amount = nb := by
  unfold mobileStage at h
  by_cases hth : env.banksFetchThrows = true
  · simp [hth] at h
  simp only [hth, if_false, Bool.false_eq_true] at h
  cases hb : env.banks <;> rw [hb] at h <;> simp at h
  rename_i banks
  cases hp : findProvider method banks <;> rw [hp] at h <;> simp at h
  by_cases h1 : (env.recipient (intlPhoneOf (orEmpty dd.phone_number))).ok = true <;>
    simp [h1] at h
  · exact transfer_success h
  · by_cases h2 : wantsLocalRetry (env.recipient (intlPhoneOf (orEmpty dd.phone_number)))
        = true <;> simp [h2] at h
    by_cases h3 : (env.recipient (localPhoneOf (orEmpty dd.phone_number))).ok = true <;>
      simp [h3] at h
    exact transfer_success h

theorem bank_success {env : Env} {bal amount fee : ℚ} {method : String}
    {dd : Dest} {a f n : ℚ} {d m : String} {r : Option String} {nb : ℚ}
    (h : (bankStage env bal amount fee method dd).1
      = Resp.success a f n d m r nb) :
    env.transfer = TransferOutcome.ok r ∧
    env.walletUpdateOk = true ∧ amount = a ∧ fee = f ∧ qsub amount fee = n ∧
      destinationOf method dd = d ∧ method = m ∧ qsub bal amount = nb := by
  unfold bankStage at h
  by_cases hth : env.bankRecipThrows = true
  · simp [hth] at h
  by_cases hok : env.bankRecipient.ok = true <;> simp [hth, hok] at h
  exact transfer_success h

theorem walletStage_success {env : Env} {amount : ℚ} {method : String}
    {dd : Dest} {a f n : ℚ} {d m : String} {r : Option String} {nb : ℚ}
    (h : (walletStage env amount method dd).1 = Resp.success a f n d m r nb) :
    ∃ bal, env.wallet = some bal ∧ ¬ bal < amount ∧ env.keyConfigured = true ∧
      calculateFee amount method = f ∧ ¬ qsub amount f ≤ 0 ∧
      env.transfer = TransferOutcome.ok r ∧ env.walletUpdateOk = true ∧
      amount = a ∧ qsub amount f = n ∧ destinationOf method dd = d ∧
      method = m ∧ qsub bal amount = nb := by
  unfold walletStage at h
  cases hw : env.wallet <;> rw [hw] at h <;> simp at h
  rename_i bal
  by_cases hbal : bal < amount
  · simp [hbal] at h
  by_cases hkey : env.keyConfigured = true
  swap
  · simp [hbal, hkey] at h
  simp only [if_neg hbal, if_pos hkey] at h
  by_cases hlow : qsub amount (calculateFee amount method) ≤ 0
  · simp [hlow] at h
  simp only [if_neg hlow] at h
  by_cases hmm : method = "mpesa" ∨ method = "airtel"
  · rw [if_pos hmm] at h
    obtain ⟨htr, hu, h1, h2, h3, h4, h5, h7⟩ := mobile_success h
    refine ⟨bal, rfl, hbal, hkey, h2, ?_, htr, hu, h1, ?_, h4, h5, h7⟩
    · rw [← h2]; exact hlow
    · rw [← h2]; exact h3
  · rw [if_neg hmm] at h
    obtain ⟨htr, hu, h1, h2, h3, h4, h5, h7⟩ := bank_success h
    refine ⟨bal, rfl, hbal, hkey, h2, ?_, htr, hu, h1, ?_, h4, h5, h7⟩
    · rw [← h2]; exact hlow
    · rw [← h2]; exact h3

theorem handler_success_inv {env : Env} {req : Req} {a f n : ℚ} {d m : String}
    {r : Option String} {nb : ℚ}
    (h : (handler env req).1 = Resp.success a f n d m r nb) :
    env.authOk = true ∧
    ∃ amount dd, req.amount = some amount ∧ 0 < amount ∧
      req.destinationDetails = some dd ∧
      ∃ bal, env.wallet = some bal ∧ ¬ bal < amount ∧
        calculateFee amount req.paymentMethod = f ∧ ¬ qsub amount f ≤ 0 ∧
        env.transfer = TransferOutcome.ok r ∧ env.walletUpdateOk = true ∧
        amount = a ∧ qsub amount f = n ∧ destinationOf req.paymentMethod dd = d ∧
        req.paymentMethod = m ∧ qsub bal amount = nb := by
  unfold handler at h
  by_cases hau : env.authOk = true
  swap
  · simp [hau] at h
  simp only [if_pos hau] at h
  cases ham : req.amount <;> rw [ham] at h <;> simp at h
  rename_i amount
  by_cases hpos : amount ≤ 0
  · simp [hpos] at h
  simp only [if_neg hpos] at h
  cases hdd : req.destinationDetails <;> rw [hdd] at h <;> simp at h
  rename_i dd
  by_cases hbk : req.paymentMethod = "bank"
  · rw [if_pos hbk] at h
    by_cases hfields : (truthy dd.account_number = true ∧ truthy dd.bank_name = true)
        ∧ truthy dd.account_name = true
    swap
    · rw [if_neg hfields] at h; simp at h
    rw [if_pos hfields] at h
    obtain ⟨bal, h1, h2, h3, h4, h5, h6, h7, h8, h9, h10, h11, h12⟩ :=
      walletStage_success h
    exact ⟨hau, amount, dd, rfl, lt_of_not_le hpos, rfl, bal, h1, h2, h4, h5,
      h6, h7, h8, h9, h10, h11, h12⟩
  · rw [if_neg hbk] at h
    by_cases hph : truthy dd.phone_number = true
    swap
    · rw [if_neg hph] at h; simp at h
    rw [if_pos hph] at h
    obtain ⟨bal, h1, h2, h3, h4, h5, h6, h7, h8, h9, h10, h11, h12⟩ :=
      walletStage_success h
    exact ⟨hau, amount, dd, rfl, lt_of_not_le hpos, rfl, bal, h1, h2, h4, h5,
      h6, h7, h8, h9, h10, h11, h12⟩


/-! ## Trace lemmas -/

@[simp] theorem walletWrites_nil : walletWrites [] = [] := rfl

@[simp] theorem walletWrites_listBanks (t : List Call) :
    walletWrites (Call.listBanks :: t) = walletWrites t := rfl

@[simp] theorem walletWrites_createRecipient (p : String) (t : List Call) :
    walletWrites (Call.createRecipient p :: t) = walletWrites t := rfl

@[simp] theorem walletWrites_createBankRecipient (x y z : String) (t : List Call) :
    walletWrites (Call.createBankRecipient x y z :: t) = walletWrites t := rfl

@[simp] theorem walletWrites_transfer (k : ℤ) (rc : String) (t : List Call) :
    walletWrites (Call.transfer k rc :: t) = walletWrites t := rfl

@[simp] theorem walletWrites_walletUpdate (v : ℚ) (b : Bool) (t : List Call) :
    walletWrites (Call.walletUpdate v b :: t)
      = if b then v :: walletWrites t else walletWrites t := by
  cases b <;> rfl

@[simp] theorem walletWrites_ledgerInsert (v : ℚ) (b : Bool) (t : List Call) :
    walletWrites (Call.ledgerInsert v b :: t) = walletWrites t := rfl

@[simp] theorem walletAttempts_nil : walletAttempts [] = [] := rfl

@[simp] theorem walletAttempts_listBanks (t : List Call) :
    walletAttempts (Call.listBanks :: t) = walletAttempts t := rfl

@[simp] theorem walletAttempts_createRecipient (p : String) (t : List Call) :
    walletAttempts (Call.createRecipient p :: t) = walletAttempts t := rfl

@[simp] theorem walletAttempts_createBankRecipient (x y z : String) (t : List Call) :
    walletAttempts (Call.createBankRecipient x y z :: t) = walletAttempts t := rfl

@[simp] theorem walletAttempts_transfer (k : ℤ) (rc : String) (t : List Call) :
    walletAttempts (Call.transfer k rc :: t) = walletAttempts t := rfl

@[simp] theorem walletAttempts_walletUpdate (v : ℚ) (b : Bool) (t : List Call) :
    walletAttempts (Call.walletUpdate v b :: t) = v :: walletAttempts t := rfl

@[simp] theorem walletAttempts_ledgerInsert (v : ℚ) (b : Bool) (t : List Call) :
    walletAttempts (Call.ledgerInsert v b :: t) = walletAttempts t := rfl

@[simp] theorem recipAttempts_nil : recipAttempts [] = [] := rfl

@[simp] theorem recipAttempts_listBanks (t : List Call) :
    recipAttempts (Call.listBanks :: t) = recipAttempts t := rfl

@[simp] theorem recipAttempts_createRecipient (p : String) (t : List Call) :
    recipAttempts (Call.createRecipient p :: t) = p :: recipAttempts t := rfl

@[simp] theorem recipAttempts_createBankRecipient (x y z : String) (t : List Call) :
    recipAttempts (Call.createBankRecipient x y z :: t) = recipAttempts t := rfl

@[simp] theorem recipAttempts_transfer (k : ℤ) (rc : String) (t : List Call) :
    recipAttempts (Call.transfer k rc :: t) = recipAttempts t := rfl

@[simp] theorem recipAttempts_walletUpdate (v : ℚ) (b : Bool) (t : List Call) :
    recipAttempts (Call.walletUpdate v b :: t) = recipAttempts t := rfl

@[simp] theorem recipAttempts_ledgerInsert (v : ℚ) (b : Bool) (t : List Call) :
    recipAttempts (Call.ledgerInsert v b :: t) = recipAttempts t := rfl

/-- The wallet balances a response implies were written: the success payload
records the one new balance, every other response none. -/
def writesOf : Resp → List ℚ
  | .success _ _ _ _ _ _ nb => [nb]
  | _ => []

theorem finalize_writes (env : Env) (bal amount fee : ℚ) (method : String)
    (dd : Dest) (ref : Option String) :
    walletWrites (finalizeStage env bal amount fee method dd ref).2
      = writesOf (finalizeStage env bal amount fee method dd ref).1 := by
  unfold finalizeStage
  by_cases hu : env.walletUpdateOk = true <;> simp [hu, writesOf]

theorem transfer_writes (env : Env) (bal amount fee : ℚ)
    (recipientCode method : String) (dd : Dest) :
    walletWrites (transferStage env bal amount fee recipientCode method dd).2
      = writesOf (transferStage env bal amount fee recipientCode method dd).1 := by
  unfold transferStage
  cases env.transfer <;> simp [writesOf, finalize_writes]

theorem mobile_writes (env : Env) (bal amount fee : ℚ) (method : String)
    (dd : Dest) :
    walletWrites (mobileStage env bal amount fee method dd).2
      = writesOf (mobileStage env bal amount fee method dd).1 := by
  unfold mobileStage
  by_cases hth : env.banksFetchThrows = true
  · simp [hth, writesOf]
  simp only [hth, if_false, Bool.false_eq_true]
  cases env.banks <;> simp [writesOf]
  rename_i banks
  cases findProvider method banks <;> simp [writesOf]
  by_cases h1 : (env.recipient (intlPhoneOf (orEmpty dd.phone_number))).ok = true <;>
    simp [h1, transfer_writes, writesOf]
  by_cases h2 : wantsLocalRetry (env.recipient (intlPhoneOf (orEmpty dd.phone_number)))
      = true <;> simp [h2, writesOf]
  by_cases h3 : (env.recipient (localPhoneOf (orEmpty dd.phone_number))).ok = true <;>
    simp [h3, transfer_writes, writesOf]

theorem bank_writes (env : Env) (bal amount fee : ℚ) (method : String) (dd : Dest) :
    walletWrites (bankStage env bal amount fee method dd).2
      = writesOf (bankStage env bal amount fee method dd).1 := by
  unfold bankStage
  by_cases hth : env.bankRecipThrows = true
  · simp [hth, writesOf]
  by_cases hok : env.bankRecipient.ok = true <;>
    simp [hth, hok, transfer_writes, writesOf]

theorem walletStage_writes (env : Env) (amount : ℚ) (method : String) (dd : Dest) :
    walletWrites (walletStage env amount method dd).2
      = writesOf (walletStage env amount method dd).1 := by
  unfold walletStage
  cases env.wallet <;> simp [writesOf]
  rename_i bal
  by_cases hbal : bal < amount
  · simp [hbal, writesOf]
  by_cases hkey : env.keyConfigured = true
  swap
  · simp [hbal, hkey, writesOf]
  simp only [if_neg hbal, if_pos hkey]
  by_cases hlow : qsub amount (calculateFee amount method) ≤ 0
  · simp [hlow, writesOf]
  simp only [if_neg hlow]
  by_cases hmm : method = "mpesa" ∨ method = "airtel"
  · rw [if_pos hmm]; exact mobile_writes ..
  · rw [if_neg hmm]; exact bank_writes ..

theorem handler_writes (env : Env) (req : Req) :
    walletWrites (handler env req).2 = writesOf (handler env req).1 := by
  unfold handler
  by_cases hau : env.authOk = true
  swap
  · simp [hau, writesOf]
  simp only [if_pos hau]
  cases req.amount <;> simp [writesOf]
  rename_i amount
  by_cases hpos : amount ≤ 0
  · simp [hpos, writesOf]
  simp only [if_neg hpos]
  cases req.destinationDetails <;> simp [writesOf]
  rename_i dd
  by_cases hbk : req.paymentMethod = "bank"
  · rw [if_pos hbk]
    by_cases hfields : (truthy dd.account_number = true ∧ truthy dd.bank_name = true)
        ∧ truthy dd.account_name = true
    · rw [if_pos hfields]; exact walletStage_writes ..
    · rw [if_neg hfields]; simp [writesOf]
  · rw [if_neg hbk]
    by_cases hph : truthy dd.phone_number = true
    · rw [if_pos hph]; exact walletStage_writes ..
    · rw [if_neg hph]; simp [writesOf]


/-! ## Wallet-update attempts happen only after a successful transfer -/

theorem transfer_attempts_empty {env : Env} (bal amount fee : ℚ)
    (rc method : String) (dd : Dest)
    (h : ∀ ref, env.transfer ≠ TransferOutcome.ok ref) :
    walletAttempts (transferStage env bal amount fee rc method dd).2 = [] := by
  unfold transferStage
  cases htr : env.transfer <;> simp
  exact absurd htr (h _)

theorem mobile_attempts_empty {env : Env} (bal amount fee : ℚ)
    (method : String) (dd : Dest)
    (h : ∀ ref, env.transfer ≠ TransferOutcome.ok ref) :
    walletAttempts (mobileStage env bal amount fee method dd).2 = [] := by
  unfold mobileStage
  by_cases hth : env.banksFetchThrows = true
  · simp [hth]
  simp only [hth, if_false, Bool.false_eq_true]
  cases env.banks <;> simp
  rename_i banks
  cases findProvider method banks <;> simp
  by_cases h1 : (env.recipient (intlPhoneOf (orEmpty dd.phone_number))).ok = true <;>
    simp [h1, transfer_attempts_empty _ _ _ _ _ _ h]
  by_cases h2 : wantsLocalRetry (env.recipient (intlPhoneOf (orEmpty dd.phone_number)))
      = true <;> simp [h2]
  by_cases h3 : (env.recipient (localPhoneOf (orEmpty dd.phone_number))).ok = true <;>
    simp [h3, transfer_attempts_empty _ _ _ _ _ _ h]

theorem bank_attempts_empty {env : Env} (bal amount fee : ℚ)
    (method : String) (dd : Dest)
    (h : ∀ ref, env.transfer ≠ TransferOutcome.ok ref) :
    walletAttempts (bankStage env bal amount fee method dd).2 = [] := by
  unfold bankStage
  by_cases hth : env.bankRecipThrows = true
  · simp [hth]
  by_cases hok : env.bankRecipient.ok = true <;>
    simp [hth, hok, transfer_attempts_empty _ _ _ _ _ _ h]

theorem walletStage_attempts_empty {env : Env} (amount : ℚ)
    (method : String) (dd : Dest)
    (h : ∀ ref, env.transfer ≠ TransferOutcome.ok ref) :
    walletAttempts (walletStage env amount method dd).2 = [] := by
  unfold walletStage
  cases env.wallet <;> simp
  rename_i bal
  by_cases hbal : bal < amount
  · simp [hbal]
  by_cases hkey : env.keyConfigured = true
  swap
  · simp [hbal, hkey]
  simp only [if_neg hbal, if_pos hkey]
  by_cases hlow : qsub amount (calculateFee amount method) ≤ 0
  · simp [hlow]
  simp only [if_neg hlow]
  by_cases hmm : method = "mpesa" ∨ method = "airtel"
  · rw [if_pos hmm]; exact mobile_attempts_empty _ _ _ _ _ h
  · rw [if_neg hmm]; exact bank_attempts_empty _ _ _ _ _ h

theorem handler_attempts_empty (env : Env) (req : Req)
    (h : ∀ ref, env.transfer ≠ TransferOutcome.ok ref) :
    walletAttempts (handler env req).2 = [] := by
  unfold handler
  by_cases hau : env.authOk = true
  swap
  · simp [hau]
  simp only [if_pos hau]
  cases req.amount <;> simp
  rename_i amount
  by_cases hpos : amount ≤ 0
  · simp [hpos]
  simp only [if_neg hpos]
  cases req.destinationDetails <;> simp
  rename_i dd
  by_cases hbk : req.paymentMethod = "bank"
  · rw [if_pos hbk]
    by_cases hfields : (truthy dd.account_number = true ∧ truthy dd.bank_name = true)
        ∧ truthy dd.account_name = true
    · rw [if_pos hfields]; exact walletStage_attempts_empty _ _ _ h
    · rw [if_neg hfields]; simp
  · rw [if_neg hbk]
    by_cases hph : truthy dd.phone_number = true
    · rw [if_pos hph]; exact walletStage_attempts_empty _ _ _ h
    · rw [if_neg hph]; simp

/-! ## Reduction equalities and the amount-too-low branch -/

theorem handler_eq_walletStage {env : Env} {req : Req} {amount : ℚ} {dd : Dest}
    (hau : env.authOk = true) (ham : req.amount = some amount)
    (hpos : ¬ amount ≤ 0) (hdd : req.destinationDetails = some dd)
    (hfields : if req.paymentMethod = "bank"
      then (truthy dd.account_number = true ∧ truthy dd.bank_name = true) ∧
        truthy dd.account_name = true
      else truthy dd.phone_number = true) :
    handler env req = walletStage env amount req.paymentMethod dd := by
  unfold handler
  simp only [if_pos hau, ham, hdd, Bool.or_eq_true, Bool.and_eq_true,
    decide_eq_true_eq]
  rw [if_neg hpos]
  by_cases hbk : req.paymentMethod = "bank"
  · rw [if_pos hbk] at hfields
    rw [if_pos hbk, if_pos hfields]
  · rw [if_neg hbk] at hfields
    rw [if_neg hbk, if_pos hfields]

theorem walletStage_eq_mobile (env : Env) (amount : ℚ) (method : String)
    (dd : Dest) (bal : ℚ)
    (hw : env.wallet = some bal) (hbal : ¬ bal < amount)
    (hkey : env.keyConfigured = true)
    (hlow : ¬ qsub amount (calculateFee amount method) ≤ 0)
    (hmm : method = "mpesa" ∨ method = "airtel") :
    walletStage env amount method dd
      = mobileStage env bal amount (calculateFee amount method) method dd := by
  unfold walletStage
  simp only [hw, Bool.or_eq_true, decide_eq_true_eq]
  rw [if_neg hbal, if_pos hkey, if_neg hlow, if_pos hmm]

theorem walletStage_eq_bank (env : Env) (amount : ℚ) (method : String)
    (dd : Dest) (bal : ℚ)
    (hw : env.wallet = some bal) (hbal : ¬ bal < amount)
    (hkey : env.keyConfigured = true)
    (hlow : ¬ qsub amount (calculateFee amount method) ≤ 0)
    (hmm : ¬ (method = "mpesa" ∨ method = "airtel")) :
    walletStage env amount method dd
      = bankStage env bal amount (calculateFee amount method) method dd := by
  unfold walletStage
  simp only [hw, Bool.or_eq_true, decide_eq_true_eq]
  rw [if_neg hbal, if_pos hkey, if_neg hlow, if_neg hmm]

theorem walletStage_atl (env : Env) (amount : ℚ) (method : String)
    (dd : Dest) (bal : ℚ)
    (hw : env.wallet = some bal) (hbal : ¬ bal < amount)
    (hkey : env.keyConfigured = true)
    (hlow : qsub amount (calculateFee amount method) ≤ 0) :
    walletStage env amount method dd
      = (Resp.amountTooLow (calculateFee amount method), []) := by
  unfold walletStage
  simp only [hw, Bool.or_eq_true, decide_eq_true_eq]
  rw [if_neg hbal, if_pos hkey, if_pos hlow]

theorem transfer_ne_atl {env : Env} (bal amount fee : ℚ) (rc method : String)
    (dd : Dest) (f : ℚ) :
    (transferStage env bal amount fee rc method dd).1 ≠ Resp.amountTooLow f := by
  unfold transferStage finalizeStage
  cases env.transfer <;> by_cases hu : env.walletUpdateOk = true <;> simp [hu]

theorem mobile_ne_atl {env : Env} (bal amount fee : ℚ) (method : String)
    (dd : Dest) (f : ℚ) :
    (mobileStage env bal amount fee method dd).1 ≠ Resp.amountTooLow f := by
  unfold mobileStage
  by_cases hth : env.banksFetchThrows = true
  · simp [hth]
  simp only [hth, if_false, Bool.false_eq_true]
  cases env.banks <;> simp
  rename_i banks
  cases findProvider method banks <;> simp
  by_cases h1 : (env.recipient (intlPhoneOf (orEmpty dd.phone_number))).ok = true <;>
    simp [h1, transfer_ne_atl]
  by_cases h2 : wantsLocalRetry (env.recipient (intlPhoneOf (orEmpty dd.phone_number)))
      = true <;> simp [h2]
  by_cases h3 : (env.recipient (localPhoneOf (orEmpty dd.phone_number))).ok = true <;>
    simp [h3, transfer_ne_atl]

theorem bank_ne_atl {env : Env} (bal amount fee : ℚ) (method : String)
    (dd : Dest) (f : ℚ) :
    (bankStage env bal amount fee method dd).1 ≠ Resp.amountTooLow f := by
  unfold bankStage
  by_cases hth : env.bankRecipThrows = true
  · simp [hth]
  by_cases hok : env.bankRecipient.ok = true <;> simp [hth, hok, transfer_ne_atl]

theorem walletStage_atl_inv {env : Env} {amount : ℚ} {method : String}
    {dd : Dest} {f : ℚ}
    (h : (walletStage env amount method dd).1 = Resp.amountTooLow f) :
    f = calculateFee amount method ∧ qsub amount f ≤ 0 := by
  unfold walletStage at h
  cases hw : env.wallet <;> rw [hw] at h <;> simp at h
  rename_i bal
  by_cases hbal : bal < amount
  · simp [hbal] at h
  by_cases hkey : env.keyConfigured = true
  swap
  · simp [hbal, hkey] at h
  simp only [if_neg hbal, if_pos hkey] at h
  by_cases hlow : qsub amount (calculateFee amount method) ≤ 0
  · rw [if_pos hlow] at h
    simp at h
    exact ⟨h.symm, h ▸ hlow⟩
  rw [if_neg hlow] at h
  by_cases hmm : method = "mpesa" ∨ method = "airtel"
  · rw [if_pos hmm] at h
    exact absurd h (mobile_ne_atl _ _ _ _ _ _)
  · rw [if_neg hmm] at h
    exact absurd h (bank_ne_atl _ _ _ _ _ _)

theorem handler_atl_inv {env : Env} {req : Req} {f : ℚ}
    (h : (handler env req).1 = Resp.amountTooLow f) :
    ∃ amount, req.amount = some amount ∧ 0 < amount ∧
      f = calculateFee amount req.paymentMethod ∧ qsub amount f ≤ 0 := by
  unfold handler at h
  by_cases hau : env.authOk = true
  swap
  · simp [hau] at h
  simp only [if_pos hau] at h
  cases ham : req.amount <;> rw [ham] at h <;> simp at h
  rename_i amount
  by_cases hpos : amount ≤ 0
  · simp [hpos] at h
  simp only [if_neg hpos] at h
  cases hdd : req.destinationDetails <;> rw [hdd] at h <;> simp at h
  rename_i dd
  by_cases hbk : req.paymentMethod = "bank"
  · rw [if_pos hbk] at h
    by_cases hfields : (truthy dd.account_number = true ∧ truthy dd.bank_name = true)
        ∧ truthy dd.account_name = true
    swap
    · rw [if_neg hfields] at h; simp at h
    rw [if_pos hfields] at h
    obtain ⟨h1, h2⟩ := walletStage_atl_inv h
    exact ⟨amount, rfl, lt_of_not_le hpos, h1, h2⟩
  · rw [if_neg hbk] at h
    by_cases hph : truthy dd.phone_number = true
    swap
    · rw [if_neg hph] at h; simp at h
    rw [if_pos hph] at h
    obtain ⟨h1, h2⟩ := walletStage_atl_inv h
    exact ⟨amount, rfl, lt_of_not_le hpos, h1, h2⟩


/-! ## Mobile recipient-creation characterization -/

theorem transfer_recipAttempts {env : Env} (bal amount fee : ℚ)
    (rc method : String) (dd : Dest) :
    recipAttempts (transferStage env bal amount fee rc method dd).2 = [] := by
  unfold transferStage finalizeStage
  cases env.transfer <;> by_cases hu : env.walletUpdateOk = true <;> simp [hu]

theorem mobile_recipAttempts_char (env : Env) (bal amount fee : ℚ)
    (method : String) (dd : Dest) {banks : List Bank} {p : Bank}
    (hth : env.banksFetchThrows = false) (hb : env.banks = BanksOutcome.ok banks)
    (hp : findProvider method banks = some p) :
    recipAttempts (mobileStage env bal amount fee method dd).2
      = if wantsLocalRetry (env.recipient (intlPhoneOf (orEmpty dd.phone_number)))
        then [intlPhoneOf (orEmpty dd.phone_number),
              localPhoneOf (orEmpty dd.phone_number)]
        else [intlPhoneOf (orEmpty dd.phone_number)] := by
  unfold mobileStage
  simp only [hth, hb, hp, if_false, Bool.false_eq_true]
  by_cases h1 : (env.recipient (intlPhoneOf (orEmpty dd.phone_number))).ok = true
  · have h2 : wantsLocalRetry (env.recipient (intlPhoneOf (orEmpty dd.phone_number)))
        = false := by
      simp [wantsLocalRetry, h1]
    simp [h1, h2, transfer_recipAttempts]
  · by_cases h2 : wantsLocalRetry (env.recipient (intlPhoneOf (orEmpty dd.phone_number)))
        = true
    · by_cases h3 : (env.recipient (localPhoneOf (orEmpty dd.phone_number))).ok = true <;>
        simp [h1, h2, h3, transfer_recipAttempts]
    · simp [h1, h2]

theorem mobile_fail_first (env : Env) (bal amount fee : ℚ)
    (method : String) (dd : Dest) {banks : List Bank} {p : Bank}
    (hth : env.banksFetchThrows = false) (hb : env.banks = BanksOutcome.ok banks)
    (hp : findProvider method banks = some p)
    (h1 : (env.recipient (intlPhoneOf (orEmpty dd.phone_number))).ok = false)
    (h2 : wantsLocalRetry (env.recipient (intlPhoneOf (orEmpty dd.phone_number)))
      = false) :
    (mobileStage env bal amount fee method dd).1
      = Resp.recipientFailed (env.recipient (intlPhoneOf (orEmpty dd.phone_number))).message := by
  unfold mobileStage
  simp only [hth, hb, hp, if_false, Bool.false_eq_true]
  simp [h1, h2]

theorem mobile_fail_retry (env : Env) (bal amount fee : ℚ)
    (method : String) (dd : Dest) {banks : List Bank} {p : Bank}
    (hth : env.banksFetchThrows = false) (hb : env.banks = BanksOutcome.ok banks)
    (hp : findProvider method banks = some p)
    (h2 : wantsLocalRetry (env.recipient (intlPhoneOf (orEmpty dd.phone_number)))
      = true)
    (h3 : (env.recipient (localPhoneOf (orEmpty dd.phone_number))).ok = false) :
    (mobileStage env bal amount fee method dd).1
      = Resp.recipientFailed (env.recipient (localPhoneOf (orEmpty dd.phone_number))).message := by
  have h1 : (env.recipient (intlPhoneOf (orEmpty dd.phone_number))).ok = false := by
    rcases hok : (env.recipient (intlPhoneOf (orEmpty dd.phone_number))).ok with _ | _
    · rfl
    · rw [wantsLocalRetry, hok] at h2; simp at h2
  unfold mobileStage
  simp only [hth, hb, hp, if_false, Bool.false_eq_true]
  simp [h1, h2, h3]

theorem mobile_updateFail {env : Env} {bal amount fee : ℚ}
    {method : String} {dd : Dest}
    (hu : env.walletUpdateOk = false) :
    (mobileStage env bal amount fee method dd).1 = Resp.walletUpdateFailed ∨
      walletAttempts (mobileStage env bal amount fee method dd).2 = [] := by
  have htr : ∀ rc, (transferStage env bal amount fee rc method dd).1
      = Resp.walletUpdateFailed ∨
      walletAttempts (transferStage env bal amount fee rc method dd).2 = [] := by
    intro rc
    unfold transferStage finalizeStage
    cases env.transfer <;> simp [hu]
  unfold mobileStage
  by_cases hth : env.banksFetchThrows = true
  · simp [hth]
  simp only [hth, if_false, Bool.false_eq_true]
  cases env.banks <;> simp
  rename_i banks
  cases findProvider method banks <;> simp
  by_cases h1 : (env.recipient (intlPhoneOf (orEmpty dd.phone_number))).ok = true
  · simpa [h1] using htr _
  by_cases h2 : wantsLocalRetry (env.recipient (intlPhoneOf (orEmpty dd.phone_number)))
      = true
  · by_cases h3 : (env.recipient (localPhoneOf (orEmpty dd.phone_number))).ok = true
    · simpa [h1, h2, h3] using htr _
    · simp [h1, h2, h3]
  · simp [h1, h2]

theorem bank_updateFail {env : Env} {bal amount fee : ℚ}
    {method : String} {dd : Dest}
    (hu : env.walletUpdateOk = false) :
    (bankStage env bal amount fee method dd).1 = Resp.walletUpdateFailed ∨
      walletAttempts (bankStage env bal amount fee method dd).2 = [] := by
  have htr : ∀ rc, (transferStage env bal amount fee rc method dd).1
      = Resp.walletUpdateFailed ∨
      walletAttempts (transferStage env bal amount fee rc method dd).2 = [] := by
    intro rc
    unfold transferStage finalizeStage
    cases env.transfer <;> simp [hu]
  unfold bankStage
  by_cases hth : env.bankRecipThrows = true
  · simp [hth]
  by_cases hok : env.bankRecipient.ok = true
  · simpa [hth, hok] using htr _
  · simp [hth, hok]

theorem handler_updateFail (env : Env) (req : Req)
    (hu : env.walletUpdateOk = false) :
    (handler env req).1 = Resp.walletUpdateFailed ∨
      walletAttempts (handler env req).2 = [] := by
  unfold handler
  by_cases hau : env.authOk = true
  swap
  · simp [hau]
  simp only [if_pos hau]
  cases req.amount <;> simp
  rename_i amount
  by_cases hpos : amount ≤ 0
  · simp [hpos]
  simp only [if_neg hpos]
  cases req.destinationDetails <;> simp
  rename_i dd
  have hws : (walletStage env amount req.paymentMethod dd).1 = Resp.walletUpdateFailed ∨
      walletAttempts (walletStage env amount req.paymentMethod dd).2 = [] := by
    unfold walletStage
    cases env.wallet <;> simp
    rename_i bal
    by_cases hbal : bal < amount
    · simp [hbal]
    by_cases hkey : env.keyConfigured = true
    swap
    · simp [hbal, hkey]
    simp only [if_neg hbal, if_pos hkey]
    by_cases hlow : qsub amount (calculateFee amount req.paymentMethod) ≤ 0
    · simp [hlow]
    simp only [if_neg hlow]
    by_cases hmm : req.paymentMethod = "mpesa" ∨ req.paymentMethod = "airtel"
    · rw [if_pos hmm]; exact mobile_updateFail hu
    · rw [if_neg hmm]; exact bank_updateFail hu
  by_cases hbk : req.paymentMethod = "bank"
  · rw [if_pos hbk]
    by_cases hfields : (truthy dd.account_number = true ∧ truthy dd.bank_name = true)
        ∧ truthy dd.account_name = true
    · rw [if_pos hfields]; exact hws
    · rw [if_neg hfields]; simp
  · rw [if_neg hbk]
    by_cases hph : truthy dd.phone_number = true
    · rw [if_pos hph]; exact hws
    · rw [if_neg hph]; simp


/-! ## Failure-response shape -/

theorem resp_failure_shape (r : Resp) (h : isSuccessResp r = false) :
    (∃ e, errorField r = some e) ∧
    (statusOf r = 400 ∨ statusOf r = 401 ∨ statusOf r = 404 ∨ statusOf r = 500) ∧
    (successField r = some false ∨ r = Resp.unauthorized ∨ r = Resp.destinationRequired
      ∨ r = Resp.bankIncomplete ∨ r = Resp.phoneRequired ∨ r = Resp.internalError) := by
  cases r <;> simp [errorField, statusOf, successField, isSuccessResp] at h ⊢

/-! ## Concrete runs used as witnesses and counterexamples -/

/-- A bank request whose amount is below the bank fee floor. -/
def lowReq : Req :=
  ⟨some 20, "bank", some ⟨some "123456", some "044", some "Jane", none⟩⟩

/-- Same success environment, but the ledger insert would fail. -/
def ledgerFailEnv : Env := { demoEnv with ledgerInsertOk := false }

/-- Same success environment, but the wallet-balance update would fail. -/
def updateFailEnv : Env := { demoEnv with walletUpdateOk := false }

/-- Environment with a wallet balance of 100 (spec scenario: balance 100,
request 150). -/
def poorEnv : Env := { demoEnv with wallet := some 100 }

/-- Environment with no resolvable identity. -/
def noAuthEnv : Env := { demoEnv with authOk := false }

/-- Environment whose provider rejects the international phone form with an
invalid-account-number message and accepts the local form. -/
def retryEnv : Env :=
  { demoEnv with
    recipient := fun p =>
      if p = "0712345678" then ⟨true, none, "RCP_2"⟩
      else ⟨false, some "Account number is invalid for this bank", ""⟩ }

/-- Environment whose provider rejects both phone forms outright. -/
def rejectEnv : Env :=
  { demoEnv with recipient := fun _ => ⟨false, some "Cannot resolve account", ""⟩ }

/-! ## The claims -/

/-- C1: every run of the handler that returns the success payload read some
wallet balance at the start, and both the one successful wallet write and the
payload's `newBalance` field equal that starting balance minus the full
requested amount (not the net-of-fee amount). -/
theorem C1_success_decrements_full_amount (env : Env) (req : Req)
    (a f n : ℚ) (d m : String) (r : Option String) (nb : ℚ)
    (h : (handler env req).1 = Resp.success a f n d m r nb) :
    ∃ bal, env.wallet = some bal ∧ req.amount = some a ∧ nb = bal - a ∧
      walletWrites (handler env req).2 = [bal - a] := by
  obtain ⟨hau, amount, dd, ham, hpos, hdd, bal, hw, hbal, hf, hlow, htr, hu,
    ha, hn, hd, hm, hnb⟩ := handler_success_inv h
  subst ha
  refine ⟨bal, hw, ham, by rw [← hnb, qsub_eq], ?_⟩
  rw [handler_writes, h]
  simp only [writesOf]
  rw [← hnb, qsub_eq]

/-- C1 witness: a concrete successful mpesa withdrawal of 150 from a balance
of 1000 writes 850 and reports `newBalance = 850`. -/
theorem C1_witness :
    ∃ bal, demoEnv.wallet = some bal ∧ demoReq.amount = some 150 ∧
      (850 : ℚ) = bal - 150 ∧
      walletWrites (handler demoEnv demoReq).2 = [bal - 150] :=
  C1_success_decrements_full_amount demoEnv demoReq 150 15 135 "0712345678"
    "mpesa" (some "TRF_1") 850 (by decide)

/-- C3: (i) when a request passes identity, amount, destination, wallet,
balance and key validation but its net amount `amount - fee` is not positive,
the handler answers 400 / `amount_too_low`, reports the minimum viable amount
`fee + 1` in the message, and performs no external call at all; (ii) every
successful withdrawal has `netAmount = amount - fee > 0`. -/
theorem C3_amount_too_low_before_provider :
    (∀ (env : Env) (req : Req) (amount : ℚ) (dd : Dest) (bal : ℚ),
      env.authOk = true → req.amount = some amount → ¬ amount ≤ 0 →
      req.destinationDetails = some dd →
      (if req.paymentMethod = "bank"
        then (truthy dd.account_number = true ∧ truthy dd.bank_name = true) ∧
          truthy dd.account_name = true
        else truthy dd.phone_number = true) →
      env.wallet = some bal → ¬ bal < amount → env.keyConfigured = true →
      qsub amount (calculateFee amount req.paymentMethod) ≤ 0 →
      handler env req
          = (Resp.amountTooLow (calculateFee amount req.paymentMethod), []) ∧
        statusOf (handler env req).1 = 400 ∧
        codeField (handler env req).1 = some "amount_too_low" ∧
        errorField (handler env req).1
          = some ("Withdrawal amount too low. Minimum amount after fees: KES "
            ++ ratStr (qadd (calculateFee amount req.paymentMethod) 1))) ∧
    (∀ (env : Env) (req : Req) (a f n : ℚ) (d m : String) (r : Option String)
      (nb : ℚ), (handler env req).1 = Resp.success a f n d m r nb →
      f = calculateFee a req.paymentMethod ∧ n = a - f ∧ 0 < n) := by
  constructor
  · intro env req amount dd bal hau ham hpos hdd hfields hw hbal hkey hlow
    have he := handler_eq_walletStage hau ham hpos hdd hfields
    have ha := walletStage_atl env amount req.paymentMethod dd bal hw hbal hkey hlow
    rw [he, ha]
    exact ⟨rfl, rfl, rfl, rfl⟩
  · intro env req a f n d m r nb h
    obtain ⟨hau, amount, dd, ham, hpos, hdd, bal, hw, hbal, hf, hlow, htr, hu,
      ha, hn, hd, hm, hnb⟩ := handler_success_inv h
    subst ha
    rw [qsub_eq] at hn hlow
    exact ⟨hf.symm, hn.symm, hn ▸ not_le.mp hlow⟩

/-- C3 witness: a bank withdrawal of 20 (fee 25, net -5) is rejected as
`amount_too_low` with no external call, and the concrete successful run has
`netAmount = 135 = 150 - 15 > 0`. -/
theorem C3_witness :
    (handler demoEnv lowReq
        = (Resp.amountTooLow (calculateFee 20 "bank"), []) ∧
      statusOf (handler demoEnv lowReq).1 = 400 ∧
      codeField (handler demoEnv lowReq).1 = some "amount_too_low" ∧
      errorField (handler demoEnv lowReq).1
        = some ("Withdrawal amount too low. Minimum amount after fees: KES "
          ++ ratStr (qadd (calculateFee 20 "bank") 1))) ∧
    ((15 : ℚ) = calculateFee 150 "mpesa" ∧ (135 : ℚ) = 150 - 15 ∧ (0 : ℚ) < 135) := by
  constructor
  · exact C3_amount_too_low_before_provider.1 demoEnv lowReq 20
      ⟨some "123456", some "044", some "Jane", none⟩ 1000 (by decide) rfl
      (by decide) rfl (by decide) rfl (by decide) rfl (by decide)
  · exact C3_amount_too_low_before_provider.2 demoEnv demoReq 150 15 135
      "0712345678" "mpesa" (some "TRF_1") 850 (by decide)

/-- C4: a run that does not end in the success payload performs no successful
wallet write, and any wallet-update attempt at all implies the provider
transfer had succeeded. -/
theorem C4_failure_leaves_wallet_untouched (env : Env) (req : Req)
    (h : isSuccessResp (handler env req).1 = false) :
    walletWrites (handler env req).2 = [] ∧
    (walletAttempts (handler env req).2 ≠ [] →
      ∃ ref, env.transfer = TransferOutcome.ok ref) := by
  constructor
  · rw [handler_writes]
    cases hr : (handler env req).1 <;> simp [writesOf]
    rw [hr] at h
    simp [isSuccessResp] at h
  · intro hne
    by_contra hno
    push_neg at hno
    exact hne (handler_attempts_empty env req hno)

/-- C4 witness: the spec scenario balance 100 / request 150 fails as
insufficient balance with an empty trace. -/
theorem C4_witness :
    walletWrites (handler poorEnv demoReq).2 = [] ∧
    (walletAttempts (handler poorEnv demoReq).2 ≠ [] →
      ∃ ref, poorEnv.transfer = TransferOutcome.ok ref) :=
  C4_failure_leaves_wallet_untouched poorEnv demoReq (by decide)

/-- C5 counterexample: in a run where the provider transfer succeeds, the
wallet update succeeds, and the `wallet_transactions` insert fails, the
handler still returns the 200 success payload — not a 500 — because the
source never checks the insert's result. -/
theorem C5_cex_ledger_failure_still_success :
    ledgerFailEnv.transfer = TransferOutcome.ok (some "TRF_1") ∧
    ledgerFailEnv.ledgerInsertOk = false ∧
    (handler ledgerFailEnv demoReq).1
      = Resp.success 150 15 135 "0712345678" "mpesa" (some "TRF_1") 850 ∧
    statusOf (handler ledgerFailEnv demoReq).1 = 200 ∧
    successField (handler ledgerFailEnv demoReq).1 = some true ∧
    Call.ledgerInsert (-150) false ∈ (handler ledgerFailEnv demoReq).2 := by
  decide

/-- C5 (amended): when the wallet-balance update would fail the handler never
returns the success payload, and if the run got as far as attempting the
update (the transfer had succeeded) it answers `Failed to update wallet` with
status 500; the `wallet_transactions` insert result is never consulted. -/
theorem C5_update_failure_is_500 (env : Env) (req : Req)
    (hu : env.walletUpdateOk = false) :
    isSuccessResp (handler env req).1 = false ∧
    (walletAttempts (handler env req).2 ≠ [] →
      (handler env req).1 = Resp.walletUpdateFailed ∧
      statusOf (handler env req).1 = 500 ∧
      successField (handler env req).1 = some false) := by
  constructor
  · cases hr : (handler env req).1 <;> simp [isSuccessResp]
    obtain ⟨-, -, -, -, -, -, -, -, -, -, -, -, hu2, -⟩ := handler_success_inv hr
    rw [hu] at hu2
    exact Bool.noConfusion hu2
  · intro hne
    rcases handler_updateFail env req hu with h | h
    · exact ⟨h, by rw [h]; rfl, by rw [h]; rfl⟩
    · exact absurd h hne

/-- C5 witness: the concrete successful-transfer run with a failing wallet
update produces the 500 `Failed to update wallet` response. -/
theorem C5_witness :
    isSuccessResp (handler updateFailEnv demoReq).1 = false ∧
    ((handler updateFailEnv demoReq).1 = Resp.walletUpdateFailed ∧
      statusOf (handler updateFailEnv demoReq).1 = 500 ∧
      successField (handler updateFailEnv demoReq).1 = some false) :=
  ⟨(C5_update_failure_is_500 updateFailEnv demoReq rfl).1,
   (C5_update_failure_is_500 updateFailEnv demoReq rfl).2 (by decide)⟩


/-- C2: the fee is the tiered pure function of `(amount, paymentMethod)`
stated in the spec, with `max(50, floor(amount * 0.005))` above the top
mpesa/airtel tier and `max(25, floor(amount * 0.001))` for bank; any other
method is free; in particular `fee(3000, mpesa) = 25` and the net amount of a
3000 mpesa withdrawal is 2975. -/
theorem C2_fee_table (a : ℚ) :
    (a ≤ 100 → calculateFee a "mpesa" = 0) ∧
    (100 < a → a ≤ 2500 → calculateFee a "mpesa" = 15) ∧
    (2500 < a → a ≤ 3500 → calculateFee a "mpesa" = 25) ∧
    (3500 < a → a ≤ 5000 → calculateFee a "mpesa" = 30) ∧
    (5000 < a → a ≤ 7500 → calculateFee a "mpesa" = 45) ∧
    (7500 < a → a ≤ 10000 → calculateFee a "mpesa" = 50) ∧
    (10000 < a → calculateFee a "mpesa" = max 50 ((⌊a * (5 / 1000)⌋ : ℤ) : ℚ)) ∧
    (a ≤ 100 → calculateFee a "airtel" = 0) ∧
    (100 < a → a ≤ 2500 → calculateFee a "airtel" = 15) ∧
    (2500 < a → a ≤ 5000 → calculateFee a "airtel" = 30) ∧
    (5000 < a → calculateFee a "airtel" = max 50 ((⌊a * (5 / 1000)⌋ : ℤ) : ℚ)) ∧
    (calculateFee a "bank" = max 25 ((⌊a * (1 / 1000)⌋ : ℤ) : ℚ)) ∧
    (∀ m, m ≠ "mpesa" → m ≠ "airtel" → m ≠ "bank" → calculateFee a m = 0) ∧
    calculateFee 3000 "mpesa" = 25 ∧
    (3000 : ℚ) - calculateFee 3000 "mpesa" = 2975 := by
  refine ⟨?_, ?_, ?_, ?_, ?_, ?_, ?_, ?_, ?_, ?_, ?_, ?_, ?_, by decide, ?_⟩
  · intro h1
    simp only [calculateFee, String.reduceEq, reduceIte]
    rw [if_pos h1]
  · intro h1 h2
    simp only [calculateFee, String.reduceEq, reduceIte]
    rw [if_neg (by linarith), if_pos h2]
  · intro h1 h2
    simp only [calculateFee, String.reduceEq, reduceIte]
    rw [if_neg (by linarith), if_neg (by linarith), if_pos h2]
  · intro h1 h2
    simp only [calculateFee, String.reduceEq, reduceIte]
    rw [if_neg (by linarith), if_neg (by linarith), if_neg (by linarith),
      if_pos h2]
  · intro h1 h2
    simp only [calculateFee, String.reduceEq, reduceIte]
    rw [if_neg (by linarith), if_neg (by linarith), if_neg (by linarith),
      if_neg (by linarith), if_pos h2]
  · intro h1 h2
    simp only [calculateFee, String.reduceEq, reduceIte]
    rw [if_neg (by linarith), if_neg (by linarith), if_neg (by linarith),
      if_neg (by linarith), if_neg (by linarith), if_pos h2]
  · intro h1
    simp only [calculateFee, String.reduceEq, reduceIte]
    rw [if_neg (by linarith), if_neg (by linarith), if_neg (by linarith),
      if_neg (by linarith), if_neg (by linarith), if_neg (by linarith),
      fee_mpesa_top]
  · intro h1
    simp only [calculateFee, String.reduceEq, reduceIte]
    rw [if_pos h1]
  · intro h1 h2
    simp only [calculateFee, String.reduceEq, reduceIte]
    rw [if_neg (by linarith), if_pos h2]
  · intro h1 h2
    simp only [calculateFee, String.reduceEq, reduceIte]
    rw [if_neg (by linarith), if_neg (by linarith), if_pos h2]
  · intro h1
    simp only [calculateFee, String.reduceEq, reduceIte]
    rw [if_neg (by linarith), if_neg (by linarith), if_neg (by linarith),
      fee_mpesa_top]
  · simp only [calculateFee, String.reduceEq, reduceIte]
    rw [fee_bank_form]
  · intro m h1 h2 h3
    simp [calculateFee, h1, h2, h3]
  · rw [show calculateFee 3000 "mpesa" = 25 by decide]
    norm_num

/-- C2 witness: concrete instances of the tiers with their side conditions
discharged, including the top percentage tiers. -/
theorem C2_witness :
    calculateFee 50 "mpesa" = 0 ∧ calculateFee 3000 "mpesa" = 25 ∧
    calculateFee 12000 "mpesa" = max 50 ((⌊(12000 : ℚ) * (5 / 1000)⌋ : ℤ) : ℚ) ∧
    calculateFee 4000 "airtel" = 30 ∧
    calculateFee 7000 "airtel" = max 50 ((⌊(7000 : ℚ) * (5 / 1000)⌋ : ℤ) : ℚ) ∧
    calculateFee 500 "bank" = max 25 ((⌊(500 : ℚ) * (1 / 1000)⌋ : ℤ) : ℚ) ∧
    calculateFee 500 "card" = 0 := by
  obtain ⟨m1, -, m3, -, -, -, -, -, -, -, -, -, -, -, -⟩ := C2_fee_table 50
  obtain ⟨-, -, p3, -, -, -, -, -, -, -, -, -, -, -, -⟩ := C2_fee_table 3000
  obtain ⟨-, -, -, -, -, -, q7, -, -, -, -, -, -, -, -⟩ := C2_fee_table 12000
  obtain ⟨-, -, -, -, -, -, -, -, -, r10, -, -, -, -, -⟩ := C2_fee_table 4000
  obtain ⟨-, -, -, -, -, -, -, -, -, -, s11, -, -, -, -⟩ := C2_fee_table 7000
  obtain ⟨-, -, -, -, -, -, -, -, -, -, -, t12, t13, -, -⟩ := C2_fee_table 500
  exact ⟨m1 (by decide), p3 (by decide) (by decide), q7 (by decide),
    r10 (by decide) (by decide), s11 (by decide), t12,
    t13 "card" (by decide) (by decide) (by decide)⟩

/-- C6 counterexample: a run with no resolvable identity produces the 401
`Unauthorized` failure response, whose serialized body has no `success`
field at all — refuting the claim that every failure response carries
`success: false`. -/
theorem C6_cex_unauthorized_lacks_success :
    isSuccessResp (handler noAuthEnv demoReq).1 = false ∧
    (handler noAuthEnv demoReq).1 = Resp.unauthorized ∧
    statusOf (handler noAuthEnv demoReq).1 = 401 ∧
    successField (handler noAuthEnv demoReq).1 = none := by decide

/-- C6 (amended): every failure response the handler produces has an `error`
string and status 400, 401, 404 or 500, and carries `success: false` except
for the unauthorized, missing-destination, incomplete-bank, missing-phone and
catch-all internal-error responses, which omit the `success` field. -/
theorem C6_failure_shape (env : Env) (req : Req)
    (h : isSuccessResp (handler env req).1 = false) :
    (∃ e, errorField (handler env req).1 = some e) ∧
    (statusOf (handler env req).1 = 400 ∨ statusOf (handler env req).1 = 401 ∨
      statusOf (handler env req).1 = 404 ∨ statusOf (handler env req).1 = 500) ∧
    (successField (handler env req).1 = some false ∨
      (handler env req).1 = Resp.unauthorized ∨
      (handler env req).1 = Resp.destinationRequired ∨
      (handler env req).1 = Resp.bankIncomplete ∨
      (handler env req).1 = Resp.phoneRequired ∨
      (handler env req).1 = Resp.internalError) :=
  resp_failure_shape _ h

/-- C6 witness: the insufficient-balance failure has an error string, status
400 and `success: false`. -/
theorem C6_witness :
    (∃ e, errorField (handler poorEnv demoReq).1 = some e) ∧
    (statusOf (handler poorEnv demoReq).1 = 400 ∨
      statusOf (handler poorEnv demoReq).1 = 401 ∨
      statusOf (handler poorEnv demoReq).1 = 404 ∨
      statusOf (handler poorEnv demoReq).1 = 500) ∧
    (successField (handler poorEnv demoReq).1 = some false ∨
      (handler poorEnv demoReq).1 = Resp.unauthorized ∨
      (handler poorEnv demoReq).1 = Resp.destinationRequired ∨
      (handler poorEnv demoReq).1 = Resp.bankIncomplete ∨
      (handler poorEnv demoReq).1 = Resp.phoneRequired ∨
      (handler poorEnv demoReq).1 = Resp.internalError) :=
  C6_failure_shape poorEnv demoReq (by decide)

/-- C7: on the mobile-money path with the provider located, the recipient
phones attempted are exactly `[international]`, with one extra `[local]`
retry if and only if the first attempt failed with a message containing
(case-insensitively) "account number is invalid"; a first attempt failing
with any other message, or a failing retry, yields the 400
recipient-creation failure carrying that attempt's message. -/
theorem C7_recipient_retry (env : Env) (req : Req) (amount : ℚ) (dd : Dest)
    (bal : ℚ) (banks : List Bank) (p : Bank)
    (hau : env.authOk = true) (ham : req.amount = some amount)
    (hpos : ¬ amount ≤ 0) (hdd : req.destinationDetails = some dd)
    (hph : truthy dd.phone_number = true)
    (hmm : req.paymentMethod = "mpesa" ∨ req.paymentMethod = "airtel")
    (hw : env.wallet = some bal) (hbal : ¬ bal < amount)
    (hkey : env.keyConfigured = true)
    (hlow : ¬ qsub amount (calculateFee amount req.paymentMethod) ≤ 0)
    (hth : env.banksFetchThrows = false)
    (hb : env.banks = BanksOutcome.ok banks)
    (hp : findProvider req.paymentMethod banks = some p) :
    (recipAttempts (handler env req).2
      = if wantsLocalRetry (env.recipient (intlPhoneOf (orEmpty dd.phone_number)))
        then [intlPhoneOf (orEmpty dd.phone_number),
              localPhoneOf (orEmpty dd.phone_number)]
        else [intlPhoneOf (orEmpty dd.phone_number)]) ∧
    ((env.recipient (intlPhoneOf (orEmpty dd.phone_number))).ok = false →
      wantsLocalRetry (env.recipient (intlPhoneOf (orEmpty dd.phone_number)))
        = false →
      (handler env req).1 = Resp.recipientFailed
        (env.recipient (intlPhoneOf (orEmpty dd.phone_number))).message ∧
      statusOf (handler env req).1 = 400) ∧
    (wantsLocalRetry (env.recipient (intlPhoneOf (orEmpty dd.phone_number)))
        = true →
      (env.recipient (localPhoneOf (orEmpty dd.phone_number))).ok = false →
      (handler env req).1 = Resp.recipientFailed
        (env.recipient (localPhoneOf (orEmpty dd.phone_number))).message ∧
      statusOf (handler env req).1 = 400) := by
  have hbk : ¬ req.paymentMethod = "bank" := by
    rcases hmm with h | h <;> rw [h] <;> decide
  have hfields : (if req.paymentMethod = "bank"
      then (truthy dd.account_number = true ∧ truthy dd.bank_name = true) ∧
        truthy dd.account_name = true
      else truthy dd.phone_number = true) := by
    rw [if_neg hbk]; exact hph
  have he := handler_eq_walletStage hau ham hpos hdd hfields
  have hm := walletStage_eq_mobile env amount req.paymentMethod dd bal hw hbal
    hkey hlow hmm
  rw [he, hm]
  refine ⟨mobile_recipAttempts_char env bal amount
    (calculateFee amount req.paymentMethod) req.paymentMethod dd hth hb hp,
    ?_, ?_⟩
  · intro h1 h2
    have hf := mobile_fail_first env bal amount
      (calculateFee amount req.paymentMethod) req.paymentMethod dd hth hb hp h1 h2
    exact ⟨hf, by rw [hf]; rfl⟩
  · intro h2 h3
    have hf := mobile_fail_retry env bal amount
      (calculateFee amount req.paymentMethod) req.paymentMethod dd hth hb hp h2 h3
    exact ⟨hf, by rw [hf]; rfl⟩

/-- C7 witness: with a provider that rejects `254712345678` as an invalid
account number and accepts `0712345678`, the attempts are exactly
`[international, local]`; with a provider rejecting both forms with another
message, the single attempt fails as 400 with that message. -/
theorem C7_witness :
    (recipAttempts (handler retryEnv demoReq).2
        = if wantsLocalRetry (retryEnv.recipient (intlPhoneOf "0712345678"))
          then [intlPhoneOf "0712345678", localPhoneOf "0712345678"]
          else [intlPhoneOf "0712345678"]) ∧
    (recipAttempts (handler rejectEnv demoReq).2
        = if wantsLocalRetry (rejectEnv.recipient (intlPhoneOf "0712345678"))
          then [intlPhoneOf "0712345678", localPhoneOf "0712345678"]
          else [intlPhoneOf "0712345678"]) ∧
    (handler rejectEnv demoReq).1
        = Resp.recipientFailed (some "Cannot resolve account") ∧
    statusOf (handler rejectEnv demoReq).1 = 400 := by
  have h1 := C7_recipient_retry retryEnv demoReq 150 demoDest 1000
    [⟨some "M-PESA", some "mpesa", some "MPESA"⟩]
    ⟨some "M-PESA", some "mpesa", some "MPESA"⟩ rfl rfl (by decide) rfl
    (by decide) (Or.inl rfl) rfl (by decide) rfl (by decide) rfl rfl (by decide)
  have h2 := C7_recipient_retry rejectEnv demoReq 150 demoDest 1000
    [⟨some "M-PESA", some "mpesa", some "MPESA"⟩]
    ⟨some "M-PESA", some "mpesa", some "MPESA"⟩ rfl rfl (by decide) rfl
    (by decide) (Or.inl rfl) rfl (by decide) rfl (by decide) rfl rfl (by decide)
  refine ⟨h1.1, h2.1, ?_, ?_⟩
  · exact (h2.2.1 (by decide) (by decide)).1
  · exact (h2.2.1 (by decide) (by decide)).2

/-- C8: the three phone-normalization examples of the spec: a leading `0`
becomes `254`, a leading `+254` loses the plus, and a bare subscriber number
gains `254`; the local form restores the leading `0`. -/
theorem C8_phone_normalization :
    intlPhoneOf "0712345678" = "254712345678" ∧
    localPhoneOf "0712345678" = "0712345678" ∧
    intlPhoneOf "+254712345678" = "254712345678" ∧
    localPhoneOf "+254712345678" = "0712345678" ∧
    intlPhoneOf "712345678" = "254712345678" := by decide

/-- C9: the fee is nonnegative for every method and amount, and within any
one tier of any method it is monotonically non-decreasing in the amount. -/
theorem C9_fee_nonneg_monotone :
    (∀ (a : ℚ) (m : String), 0 ≤ calculateFee a m) ∧
    (∀ (m : String) (a b : ℚ), a ≤ b → feeTier a m = feeTier b m →
      calculateFee a m ≤ calculateFee b m) :=
  ⟨fun a m => fee_nonneg a m, fun m a b hab ht => @fee_mono m a b hab ht⟩

/-- C9 witness: nonnegativity at a concrete point and in-tier monotonicity
instances for a constant tier and for the percentage tier. -/
theorem C9_witness :
    (0 : ℚ) ≤ calculateFee 5 "mpesa" ∧
    calculateFee 200 "mpesa" ≤ calculateFee 2000 "mpesa" ∧
    calculateFee 11000 "mpesa" ≤ calculateFee 12000 "mpesa" ∧
    calculateFee 30 "bank" ≤ calculateFee 40000 "bank" :=
  ⟨C9_fee_nonneg_monotone.1 5 "mpesa",
   C9_fee_nonneg_monotone.2 "mpesa" 200 2000 (by decide) (by decide),
   C9_fee_nonneg_monotone.2 "mpesa" 11000 12000 (by decide) (by decide),
   C9_fee_nonneg_monotone.2 "bank" 30 40000 (by decide) (by decide)⟩

/-- C10: for mpesa and airtel the fee is strictly below every positive
amount, so the `amount_too_low` branch is unreachable on the mobile-money
paths; for bank, amounts of at most 25 are dominated by the fee floor, which
is what makes that branch reachable there. -/
theorem C10_mobile_fee_below_amount :
    (∀ a : ℚ, 0 < a → calculateFee a "mpesa" < a ∧ calculateFee a "airtel" < a) ∧
    (∀ (env : Env) (req : Req) (f : ℚ),
      req.paymentMethod = "mpesa" ∨ req.paymentMethod = "airtel" →
      (handler env req).1 ≠ Resp.amountTooLow f) ∧
    (∀ a : ℚ, 0 < a → a ≤ 25 → a ≤ calculateFee a "bank") := by
  refine ⟨fun a ha => ⟨fee_lt_mpesa a ha, fee_lt_airtel a ha⟩, ?_,
    fun a _hpos h => fee_bank_low a h⟩
  intro env req f hmm h
  obtain ⟨amount, ham, hpos, hf, hlow⟩ := handler_atl_inv h
  rw [qsub_eq] at hlow
  rcases hmm with hm | hm <;> rw [hm] at hf
  · have hlt := fee_lt_mpesa amount hpos
    rw [← hf] at hlt
    linarith
  · have hlt := fee_lt_airtel amount hpos
    rw [← hf] at hlt
    linarith

/-- C10 witness: the fee bounds at amount 7, the impossibility of
`amount_too_low` on the concrete mpesa run, and the bank floor at amount 20. -/
theorem C10_witness :
    (calculateFee 7 "mpesa" < 7 ∧ calculateFee 7 "airtel" < 7) ∧
    (handler demoEnv demoReq).1 ≠ Resp.amountTooLow 10 ∧
    (20 : ℚ) ≤ calculateFee 20 "bank" :=
  ⟨C10_mobile_fee_below_amount.1 7 (by decide),
   C10_mobile_fee_below_amount.2.1 demoEnv demoReq 10 (Or.inl rfl),
   C10_mobile_fee_below_amount.2.2 20 (by decide) (by decide)⟩

end Withdraw
